import Mathlib

/-!
Verification development for the `malas-kkn` repository: a shallow embedding
of its SIMASTER portal adapter (src/simaster.py), its datetime parsing
utilities (src/kkn_utils.py, src/timeline.py) and its geo randomizer
(src/utils.py), together with theorems settling the frozen claims about it.

Network interaction is embedded by passing the outcomes of the HTTP calls
(page texts, response cookies, parsed-JSON fields, transport failures) in as
explicit environment records; all text processing (regular-expression
searches, substring tests, integer parsing, whitespace normalisation) is
translated faithfully from the Python source.  lxml HTML trees are embedded
as lists of rows of cells carrying their text content (`text_content()`)
and, where the code serialises a cell back to HTML, that serialised string.
-/

namespace MalasKKN

/-- Does the first list occur at the start of the second? -/
def prefixEq : List Char → List Char → Bool
  | [], _ => true
  | _ :: _, [] => false
  | c :: cs, d :: ds => c = d && prefixEq cs ds

/-- Does the first list occur anywhere inside the second? -/
def infixEq (n : List Char) : List Char → Bool
  | [] => prefixEq n []
  | d :: ds => prefixEq n (d :: ds) || infixEq n ds

/-- Python `needle in haystack` substring test. -/
def strContains (hay needle : String) : Bool :=
  infixEq needle.data hay.data

/-- Digits-only string to a natural number; `none` when empty or non-digit. -/
def natOfDigits? (cs : List Char) : Option Nat :=
  if cs = [] then none
  else
    cs.foldl (fun acc c =>
      match acc with
      | none => none
      | some n => if c.isDigit then some (n * 10 + (c.toNat - 48)) else none)
      (some 0)

/-- Python `\s` (ASCII whitespace; the inputs here are ASCII). -/
def isWsC (c : Char) : Bool := c.isWhitespace

/-- Python `str.strip()` (ASCII whitespace; own structural implementation so
that proofs can evaluate it by kernel reduction). -/
def trimS (s : String) : String :=
  String.mk (((s.data.dropWhile isWsC).reverse.dropWhile isWsC).reverse)

/-- Python `str.lower()`. -/
def toLowerS (s : String) : String := String.mk (s.data.map Char.toLower)

/-- Python `str.replace(pat, rep)` for a non-empty `pat`, with a character
fuel making the recursion structural; each step consumes at least one
character, so `fuel = cs.length` is exact. -/
def replaceFuel (pat rep : List Char) : Nat → List Char → List Char
  | _, [] => []
  | 0, cs => cs
  | fuel+1, c :: cs =>
    if pat ≠ [] && prefixEq pat (c :: cs) then
      rep ++ replaceFuel pat rep fuel (cs.drop (pat.length - 1))
    else c :: replaceFuel pat rep fuel cs

/-- Python `str.replace(pat, rep)`. -/
def replaceS (s pat rep : String) : String :=
  String.mk (replaceFuel pat.data rep.data s.data.length s.data)

/-- Split into maximal whitespace-free words (Python `s.split()`). -/
def splitWsAux : List Char → List Char → List (List Char)
  | [], acc => if acc = [] then [] else [acc.reverse]
  | c :: cs, acc =>
    if isWsC c then
      (if acc = [] then splitWsAux cs [] else acc.reverse :: splitWsAux cs [])
    else splitWsAux cs (c :: acc)

/-- Join words with single spaces (Python `' '.join(words)`). -/
def joinSpace : List (List Char) → List Char
  | [] => []
  | [w] => w
  | w :: ws => w ++ ' ' :: joinSpace ws

/-- Python `' '.join(s.split())`: collapse whitespace runs to single spaces
and strip the ends. -/
def normSpace (s : String) : String :=
  String.mk (joinSpace (splitWsAux s.data []))

/-- Python `s.split(sep)` for a single-character separator, keeping empty
fields. -/
def splitOnCharAux (sep : Char) : List Char → List Char → List String
  | [], acc => [String.mk acc.reverse]
  | c :: cs, acc =>
    if c = sep then String.mk acc.reverse :: splitOnCharAux sep cs []
    else splitOnCharAux sep cs (c :: acc)

/-- Python `s.split(sep)` for a single-character separator. -/
def splitOnChar (s : String) (sep : Char) : List String :=
  splitOnCharAux sep s.data []

/-- Python `int(s)` on an already-stripped string: optional sign then digits.
(PEP-515 underscore separators are not modelled; no input in this
development uses them.) -/
def pyInt? (s : String) : Option Int :=
  match (trimS s).data with
  | '+' :: ds => (natOfDigits? ds).map Int.ofNat
  | '-' :: ds => (natOfDigits? ds).map (fun n => -(n : Int))
  | ds => (natOfDigits? ds).map Int.ofNat

/-- Cookie jars are association lists in insertion order; reading a cookie by
iterating the jar keeps the last match, mirroring
`for cookie in ses.cookies: if cookie.name == n: v = cookie.value`. -/
def lastCookie (jar : List (String × String)) (name : String) : Option String :=
  jar.foldl (fun acc kv => if kv.1 = name then some kv.2 else acc) none

/-- `cookies.set name value`: replace an existing cookie of that name, else
append it. -/
def setCookie (jar : List (String × String)) (name value : String) :
    List (String × String) :=
  if (jar.filter (·.1 = name)) = [] then jar ++ [(name, value)]
  else jar.map (fun kv => if kv.1 = name then (name, value) else kv)

/-! ## A small backtracking regular-expression engine

The Python code uses `re.search` with a handful of concrete patterns.  Every
quantifier in those patterns applies to a single-character class, so a
pattern is embedded as a token list: literal characters, counted/unbounded
repetitions of a character class (greedy or lazy), and capture-group
markers.  The matcher enumerates repetition counts in Python's backtracking
order (greedy: longest first; lazy: shortest first), so it computes exactly
the match `re.search` would produce on these patterns. -/

/-- One token of a compiled pattern. -/
inductive Tok where
  | lit : Char → Tok
  | rep : (Char → Bool) → Nat → Option Nat → Bool → Tok
  | gopen : Nat → Tok
  | gclose : Nat → Tok

/-- Length of the maximal prefix of `s` whose characters satisfy `f`. -/
def maxRun (f : Char → Bool) : List Char → Nat
  | [] => 0
  | c :: cs => if f c then maxRun f cs + 1 else 0

/-- Candidate repetition counts, in the order Python's engine tries them:
`lo..m` ascending when lazy, descending when greedy. -/
def repCands (lo m : Nat) (lazyRep : Bool) : List Nat :=
  let asc := (List.range (m + 1 - lo)).map (lo + ·)
  if lazyRep then asc else asc.reverse

/-- Match a token list against `s`, returning the captures of the first
(Python-order) full match.  `opens` records, per open group, the suffix at
which it opened; a close records the consumed span as the captured text. -/
def matchToks : List Tok → List Char → List (Nat × List Char) →
    List (Nat × String) → Option (List (Nat × String))
  | [], _, _, caps => some caps
  | Tok.lit c :: ts, s, opens, caps =>
    match s with
    | c' :: s' => if c' = c then matchToks ts s' opens caps else none
    | [] => none
  | Tok.gopen n :: ts, s, opens, caps => matchToks ts s ((n, s) :: opens) caps
  | Tok.gclose n :: ts, s, opens, caps =>
    match opens.lookup n with
    | some saved =>
      let cap := String.mk (saved.take (saved.length - s.length))
      matchToks ts s opens ((n, cap) :: caps)
    | none => none
  | Tok.rep f lo hi lazyRep :: ts, s, opens, caps =>
    let run := maxRun f s
    let m := min run (hi.getD run)
    if lo > m then none
    else (repCands lo m lazyRep).findSome? (fun k => matchToks ts (s.drop k) opens caps)

/-- `re.search` for a pattern anchored at the string start (`^...`): Python
tries position 0 only. -/
def searchAnchored (ts : List Tok) (s : String) : Option (List (Nat × String)) :=
  matchToks ts s.data [] []

/-- Unanchored `re.search`: leftmost match, trying successive start
positions. -/
def searchAt (ts : List Tok) : List Char → Option (List (Nat × String))
  | [] => matchToks ts [] [] []
  | c :: cs =>
    match matchToks ts (c :: cs) [] [] with
    | some caps => some caps
    | none => searchAt ts cs

/-- Unanchored `re.search` over a string. -/
def search (ts : List Tok) (s : String) : Option (List (Nat × String)) :=
  searchAt ts s.data

/-- Captured text of group `n` (groups always capture on a successful match
of the patterns used here; default the empty string). -/
def capt (caps : List (Nat × String)) (n : Nat) : String :=
  (caps.lookup n).getD ""

/-- Compile a literal string into literal tokens. -/
def lits (s : String) : List Tok := s.data.map Tok.lit

/-- Python `\d`. -/
def isDigitC (c : Char) : Bool := c.isDigit

/-- Python `\w` (ASCII letters, digits and underscore; the month names and
markup matched here are ASCII). -/
def isWordC (c : Char) : Bool := c.isAlphanum || c = '_'

/-- `.` with `re.DOTALL`: any character. -/
def anyC (_ : Char) : Bool := true

/-- `.` without `re.DOTALL`: any character except a newline. -/
def notNL (c : Char) : Bool := c ≠ '\n'

/-- The apostrophe character (written by code point to keep source plain). -/
def apos : Char := Char.ofNat 39

/-- Character class `['\"]` (either quote). -/
def quoteC (c : Char) : Bool := c = apos || c = '"'

/-- Character class `[^'\"]`. -/
def notQuoteC (c : Char) : Bool := !(c = apos || c = '"')

/-- Character class `[^']`. -/
def notAposC (c : Char) : Bool := c ≠ apos

/-- Character class `[^>]`. -/
def notGtC (c : Char) : Bool := c ≠ '>'

/-! ## Datetime-range parsing (kkn_utils.py / timeline.py)

`parse_datetime_range` exists in two copies; they are identical except that
the kkn_utils.py copy has an extra fallback branch that also returns
`(None, None)`, so the two are observationally equal.  The embedding follows
kkn_utils.py. -/

/-- The `MONTH_MAP` table of lowercase Indonesian month names. -/
def MONTH_MAP : List (String × Nat) :=
  [("januari", 1), ("februari", 2), ("maret", 3), ("april", 4), ("mei", 5),
   ("juni", 6), ("juli", 7), ("agustus", 8), ("september", 9),
   ("oktober", 10), ("november", 11), ("desember", 12)]

/-- A Python `datetime.datetime` value (date plus wall-clock time). -/
structure DT where
  year : Nat
  month : Nat
  day : Nat
  hour : Nat
  minute : Nat
deriving DecidableEq

/-- Gregorian leap-year test, as used by `datetime`. -/
def isLeap (y : Nat) : Bool := y % 4 = 0 && (y % 100 ≠ 0 || y % 400 = 0)

/-- Days in a month, as validated by `datetime`. -/
def daysInMonth (y m : Nat) : Nat :=
  if m = 2 then (if isLeap y then 29 else 28)
  else if m = 4 || m = 6 || m = 9 || m = 11 then 30
  else 31

/-- `datetime.datetime(y, m, d, hh, mm)`: `none` models the `ValueError` the
constructor raises on out-of-range fields. -/
def mkDT? (y m d hh mm : Nat) : Option DT :=
  if 1 ≤ y && y ≤ 9999 && 1 ≤ m && m ≤ 12 && 1 ≤ d && d ≤ daysInMonth y m
      && hh ≤ 23 && mm ≤ 59 then
    some ⟨y, m, d, hh, mm⟩
  else none

/-- A `\d{2}:\d{2}` time-of-day token: `(\d{2}:\d{2})`. -/
def hhmmToks (g : Nat) : List Tok :=
  [Tok.gopen g, Tok.rep isDigitC 2 (some 2) false, Tok.lit ':',
   Tok.rep isDigitC 2 (some 2) false, Tok.gclose g]

/-- A `(\d{1,2})\s(\w+)\s(\d{4})\s(\d{2}:\d{2})` date-time prefix with
groups `g, g+1, g+2, g+3`. -/
def dmytToks (g : Nat) : List Tok :=
  [Tok.gopen g, Tok.rep isDigitC 1 (some 2) false, Tok.gclose g,
   Tok.rep isWsC 1 (some 1) false,
   Tok.gopen (g+1), Tok.rep isWordC 1 none false, Tok.gclose (g+1),
   Tok.rep isWsC 1 (some 1) false,
   Tok.gopen (g+2), Tok.rep isDigitC 4 (some 4) false, Tok.gclose (g+2),
   Tok.rep isWsC 1 (some 1) false] ++ hhmmToks (g+3)

/-- The overnight pattern
`(\d{1,2})\s(\w+)\s(\d{4})\s(\d{2}:\d{2})\s+s\.d\s+(\d{1,2})\s(\w+)\s(\d{4})\s(\d{2}:\d{2})`. -/
def overnightToks : List Tok :=
  dmytToks 1 ++ [Tok.rep isWsC 1 none false, Tok.lit 's', Tok.lit '.',
    Tok.lit 'd', Tok.rep isWsC 1 none false] ++ dmytToks 5

/-- The same-day pattern
`(\d{1,2})\s(\w+)\s(\d{4})\s(\d{2}:\d{2})\s+-\s+(\d{2}:\d{2})`. -/
def samedayToks : List Tok :=
  dmytToks 1 ++ [Tok.rep isWsC 1 none false, Tok.lit '-',
    Tok.rep isWsC 1 none false] ++ hhmmToks 5

/-- `datetime_str.lower().replace("wib", "").strip()`. -/
def normalizeDtStr (s : String) : String :=
  trimS (replaceS (toLowerS s) "wib" "")

/-- Build a `DT` from captured day, month-name, year and `HH:MM` strings,
mirroring `datetime(int(y), MONTH_MAP[m], int(d), int(t[:2]), int(t[3:]))`;
`none` models the `KeyError`/`ValueError` paths. -/
def dtOfGroups? (d mname y t : String) : Option DT := do
  let m ← MONTH_MAP.lookup mname
  let dn ← natOfDigits? d.data
  let yn ← natOfDigits? y.data
  let hh ← natOfDigits? (t.data.take 2)
  let mm ← natOfDigits? (t.data.drop 3)
  mkDT? yn m dn hh mm

/-- `parse_datetime_range` from kkn_utils.py: overnight pattern first, then
the same-day pattern; any `KeyError`/`ValueError` along the way, or no
match at all, yields `(None, None)`.  The input is an `Option` because the
function first tests Python falsiness (`if not datetime_str`), which also
catches the empty string. -/
def parse_datetime_range (s? : Option String) : Option DT × Option DT :=
  match s? with
  | none => (none, none)
  | some s0 =>
    if s0 = "" then (none, none)
    else
      let s := normalizeDtStr s0
      match search overnightToks s with
      | some caps =>
        match dtOfGroups? (capt caps 1) (capt caps 2) (capt caps 3) (capt caps 4),
              dtOfGroups? (capt caps 5) (capt caps 6) (capt caps 7) (capt caps 8) with
        | some a, some b => (some a, some b)
        | _, _ => (none, none)
      | none =>
        match search samedayToks s with
        | some caps =>
          match dtOfGroups? (capt caps 1) (capt caps 2) (capt caps 3) (capt caps 4),
                dtOfGroups? (capt caps 1) (capt caps 2) (capt caps 3) (capt caps 5) with
          | some a, some b => (some a, some b)
          | _, _ => (none, none)
        | none => (none, none)

/-- The claim's precondition, read off the code's recognizers: the
(normalised) string is matched by the overnight or the same-day pattern and
the month names it captures are in the fixed month table. -/
def matchesEitherFormat (s : String) : Bool :=
  let t := normalizeDtStr s
  match search overnightToks t with
  | some caps =>
    (MONTH_MAP.lookup (capt caps 2)).isSome && (MONTH_MAP.lookup (capt caps 6)).isSome
  | none =>
    match search samedayToks t with
    | some caps => (MONTH_MAP.lookup (capt caps 2)).isSome
    | none => false

/-! ## HTML table rows

A `<td>` cell carries its `text_content()` and, where the code serialises it
back to markup (`tostring(cols[4])`), that serialised HTML.  A row is its
cell list plus the anchors (`<a>` elements) found under it by `xpath`; the
row-level `text_content()` is the concatenation of the cell texts. -/

/-- An anchor element: its string value and its `ajaxify` attribute. -/
structure Anchor where
  text : String
  ajaxify : Option String
deriving DecidableEq

/-- A table cell. -/
structure Cell where
  text : String
  html : String
deriving DecidableEq

/-- A table row. -/
structure Row where
  cells : List Cell
  anchors : List Anchor
deriving DecidableEq

/-- A cell with only text content. -/
def tcell (t : String) : Cell := ⟨t, ""⟩

/-- `row.text_content()`: concatenation of the cell texts. -/
def rowText (r : Row) : String :=
  (r.cells.map Cell.text).foldl (· ++ ·) ""

/-! ## Logbook entry scraping (`get_logbook_entries_by_id`)

The embedding covers the row-processing core of the function: the network
prologue (program list, RPP URL, page fetch) yields the `tbody` rows that
the `while` loops consume; the loops over the row index `i` (outer) and `j`
(inner) are translated as structural recursion on the remaining row
suffix. -/

/-- A parsed sub-entry record (`sub_data`). -/
structure SubE where
  is_attended : Bool
  title : String
  datetime_str : String
  duration : String
deriving DecidableEq

/-- A parsed main-entry record (`entry_data`). -/
structure Entry where
  entry_index : Int
  kegiatan_url : Option String
  title : String
  date : String
  location : String
  sub_entries : List SubE
  attendance_status : String
deriving DecidableEq

/-- The pattern `href=['\"]([^'\"]*logbook_kegiatan[^'\"]*)['\"]` applied to
the serialised action cell. -/
def kegiatanToks : List Tok :=
  lits "href=" ++ [Tok.rep quoteC 1 (some 1) false, Tok.gopen 1,
    Tok.rep notQuoteC 0 none false] ++ lits "logbook_kegiatan" ++
    [Tok.rep notQuoteC 0 none false, Tok.gclose 1, Tok.rep quoteC 1 (some 1) false]

/-- The sub-entry pattern
`^(?P<title>.*?)\s+\((?P<datetime_str>.*? \d{2}:\d{2}.*?)\)\s+\[(?P<duration>.*?)\]`
(no DOTALL; groups 1 = title, 2 = datetime_str, 3 = duration). -/
def subEntryToks : List Tok :=
  [Tok.gopen 1, Tok.rep notNL 0 none true, Tok.gclose 1,
   Tok.rep isWsC 1 none false, Tok.lit '(',
   Tok.gopen 2, Tok.rep notNL 0 none true, Tok.lit ' ',
   Tok.rep isDigitC 2 (some 2) false, Tok.lit ':',
   Tok.rep isDigitC 2 (some 2) false, Tok.rep notNL 0 none true, Tok.gclose 2,
   Tok.lit ')', Tok.rep isWsC 1 none false, Tok.lit '[',
   Tok.gopen 3, Tok.rep notNL 0 none true, Tok.gclose 3, Tok.lit ']']

/-- Marker string the portal emits for an attended activity. -/
def sudahPresensi : String := "Sudah Presensi"

/-- Is this row a logbook sub-entry row: exactly 2 cells, first cell empty
after stripping (`len(sub_cols) == 2 and not sub_cols[0].text_content().strip()`)? -/
def isSubRow (r : Row) : Bool :=
  match r.cells with
  | [c0, _] => trimS c0.text = ""
  | _ => false

/-- Parse one sub-entry row into `sub_data`: normalise the second cell's
text, derive `is_attended` by the marker substring test, then apply the
sub-entry pattern with the raw-text fallback. -/
def mkSubEntry (r : Row) : SubE :=
  let full_text := normSpace (((r.cells.drop 1).headD (tcell "")).text)
  let is_attended := strContains full_text sudahPresensi
  match searchAnchored subEntryToks full_text with
  | some caps =>
    ⟨is_attended, trimS (capt caps 1), trimS (capt caps 2), trimS (capt caps 3)⟩
  | none => ⟨is_attended, full_text, "N/A", "N/A"⟩

/-- Parse a 5-cell main row's own fields (`entry_data` before sub-entries);
`none` models the `ValueError` of `int(cols[0].text_content().strip())`,
which aborts the whole call. -/
def mkMainEntry? (r : Row) : Option Entry :=
  match r.cells with
  | [c0, c1, c2, c3, c4] =>
    match pyInt? (trimS c0.text) with
    | some n =>
      some ⟨n, (search kegiatanToks c4.html).map (capt · 1),
            trimS c1.text, trimS c2.text, trimS c3.text, [], ""⟩
    | none => none
  | _ => none

/-- The inner `while j < len(rows)` loop: consume consecutive sub-entry rows,
returning the parsed sub-entries and the remaining rows. -/
def subRun : List Row → List SubE × List Row
  | [] => ([], [])
  | r :: rest =>
    if isSubRow r then
      let (subs, rest') := subRun rest
      (mkSubEntry r :: subs, rest')
    else ([], r :: rest)

/-- The fold the inner loop performs over the sub-entries' attendance flags:
state `(all_sub_attended, notattendedflag)`, initially `(False, True)`. -/
def subFlags (fls : List Bool) : Bool × Bool :=
  fls.foldl (fun st att =>
    if att && st.2 then (true, st.2)
    else if !att then (st.1, false)
    else st) (false, true)

/-- The `attendance_status` string derived after the inner loop. -/
def statusOf (subs : List SubE) : String :=
  if subs = [] then "Belum Presensi"
  else if (subFlags (subs.map SubE.is_attended)).1 then "Sudah Presensi"
  else "Belum Presensi"

/-- The outer `while i < len(rows)` loop of `get_logbook_entries_by_id`,
with a fuel argument making the recursion structural (each step consumes at
least one row, so `fuel = rows.length` is enough and the zero case is
unreachable).  `none` models the `ValueError` escape from `int(...)`
(caught by the blanket `except`, which returns `None` for the whole
call). -/
def logbookLoop : Nat → List Row → Option (List Entry)
  | _, [] => some []
  | 0, _ :: _ => some []
  | fuel + 1, r :: rest =>
    if r.cells.length = 5 then
      match mkMainEntry? r with
      | none => none
      | some core =>
        let sr := subRun rest
        match logbookLoop fuel sr.2 with
        | none => none
        | some es =>
          some ({ core with sub_entries := sr.1, attendance_status := statusOf sr.1 } :: es)
    else logbookLoop fuel rest

/-- The row-processing core of `get_logbook_entries_by_id`. -/
def get_logbook_entries_by_id (rows : List Row) : Option (List Entry) :=
  logbookLoop rows.length rows

/-- The main-entry record the specification ascribes to a 5-cell row and its
following run of sub-rows (same field extraction as the code). -/
def specEntryOf (r : Row) (subRows : List Row) : Entry :=
  let subs := subRows.map mkSubEntry
  { ((mkMainEntry? r).getD ⟨0, none, "", "", "", [], ""⟩) with
      sub_entries := subs, attendance_status := statusOf subs }

/-- The specification's row grouping, written with the claim's own notions:
a 5-cell row starts a main entry whose sub-entries are exactly the maximal
run of consecutive sub-shaped rows immediately after it; every other row is
skipped. -/
def specRpp : List Row → List Entry
  | [] => []
  | r :: rest =>
    if r.cells.length = 5 then
      specEntryOf r (rest.takeWhile isSubRow) :: specRpp (rest.dropWhile isSubRow)
    else specRpp rest
  termination_by rows => rows.length
  decreasing_by
    · have h : ∀ l : List Row, (l.dropWhile isSubRow).length ≤ l.length := by
        intro l
        induction l with
        | nil => simp
        | cons q qrest ih =>
          by_cases hp : isSubRow q
          · simp only [List.dropWhile_cons, hp, if_pos]
            exact Nat.le_succ_of_le ih
          · simp [List.dropWhile_cons, hp]
      have := h rest
      simp only [List.length_cons]
      omega
    · simp only [List.length_cons]
      omega

/-! ## Program Bantu scraping (`get_bantu_pic_entries`) -/

/-- A sub-entry of a Program Bantu main entry. -/
structure PicSub where
  title : String
  datetime_str : String
  is_attended : Bool
deriving DecidableEq

/-- A Program Bantu main entry. -/
structure PicMain where
  index : Int
  title : String
  pic : String
  date : String
  location : String
  sub_entries : List PicSub
deriving DecidableEq

/-- Outcome of `get_bantu_pic_entries`: `crash` models the uncaught
`ValueError` from `int(...)` (only `RequestException`, `IndexError` and
`AttributeError` are caught), `fail` models `return None`, `ok` a returned
list. -/
inductive BanResult where
  | crash : BanResult
  | fail : BanResult
  | ok : List PicMain → BanResult
deriving DecidableEq

/-- Text content of the i-th cell of a row (rows are only indexed where the
code has checked the cell count). -/
def cellTextAt (r : Row) (i : Nat) : String :=
  (((r.cells.drop i).headD (tcell "")).text)

/-- The pattern `href='([^']+logbook_program_rpp[^']+)'` locating the RPP
page URL inside a program's `action` HTML. -/
def rppToks : List Tok :=
  lits "href=" ++ [Tok.lit apos, Tok.gopen 1, Tok.rep notAposC 1 none false] ++
    lits "logbook_program_rpp" ++
    [Tok.rep notAposC 1 none false, Tok.gclose 1, Tok.lit apos]

/-- The Program Bantu sub-entry pattern
`^(?P<title>.*?)\s\((?P<datetime_str>.*?WIB)\)\s\[(?P<duration>.*?)\]` with
`re.DOTALL`. -/
def bantuSubToks : List Tok :=
  [Tok.gopen 1, Tok.rep anyC 0 none true, Tok.gclose 1,
   Tok.rep isWsC 1 (some 1) false, Tok.lit '(',
   Tok.gopen 2, Tok.rep anyC 0 none true] ++ lits "WIB" ++
  [Tok.gclose 2, Tok.lit ')', Tok.rep isWsC 1 (some 1) false, Tok.lit '[',
   Tok.gopen 3, Tok.rep anyC 0 none true, Tok.gclose 3, Tok.lit ']']

/-- Append a parsed sub-entry to the last main entry
(`pic_entries[-1]['sub_entries'].append(...)`). -/
def appendSubToLast : List PicMain → PicSub → List PicMain
  | [], _ => []
  | [m], s => [{ m with sub_entries := m.sub_entries ++ [s] }]
  | m :: rest, s => m :: appendSubToLast rest s

/-- Build a Program Bantu main entry from a 6-cell row (after the `int`
conversion succeeded). -/
def mkPicMain (n : Int) (r : Row) : PicMain :=
  ⟨n, trimS (cellTextAt r 1), trimS (cellTextAt r 3), trimS (cellTextAt r 4),
   trimS (cellTextAt r 5), []⟩

/-- The `while i < len(rows)` loop of `get_bantu_pic_entries`, with a fuel
argument making the recursion structural (each step consumes at least one
row, so `fuel = rows.length` is enough).  A 6-cell row with non-empty first
cell starts a main entry; a 2-cell row (once a main entry exists) whose
second cell matches the sub-entry pattern is attached to the last main
entry, with `is_attended` decided — only when a following row exists — by
looking for the marker in the next row, the row after next, or the row
itself, and with an extra `i += 1` skip when attended. -/
def bantuLoop : Nat → List PicMain → List Row → BanResult
  | _, acc, [] => .ok acc
  | 0, acc, _ :: _ => .ok acc
  | fuel + 1, acc, r :: rest =>
    if r.cells.length = 6 && trimS (cellTextAt r 0) ≠ "" then
      match pyInt? (trimS (cellTextAt r 0)) with
      | none => .crash
      | some n => bantuLoop fuel (acc ++ [mkPicMain n r]) rest
    else if r.cells.length = 2 && acc ≠ [] then
      match searchAnchored bantuSubToks (trimS (cellTextAt r 1)) with
      | some caps =>
        let sub_title := trimS (capt caps 1)
        let datetime_str := trimS (capt caps 2)
        match rest with
        | [] =>
          bantuLoop fuel (appendSubToLast acc ⟨sub_title, datetime_str, false⟩) []
        | r2 :: rest2 =>
          let next_next := match rest2 with | r3 :: _ => rowText r3 | [] => ""
          if strContains (rowText r2) sudahPresensi
              || strContains next_next sudahPresensi
              || strContains (rowText r) sudahPresensi then
            bantuLoop fuel (appendSubToLast acc ⟨sub_title, datetime_str, true⟩) rest2
          else
            bantuLoop fuel (appendSubToLast acc ⟨sub_title, datetime_str, false⟩) (r2 :: rest2)
      | none => bantuLoop fuel acc rest
    else bantuLoop fuel acc rest

/-- Modelled from the amended claim: a Program Bantu sub-entry row `r`
followed by `rest` counts as attended iff a following row exists and the
marker appears in the next row, in the row after next, or in `r` itself. -/
def bantuAttendedCond (r : Row) (rest : List Row) : Bool :=
  match rest with
  | [] => false
  | r2 :: rest2 =>
    strContains (rowText r2) sudahPresensi ||
    strContains (match rest2 with | r3 :: _ => rowText r3 | [] => "") sudahPresensi ||
    strContains (rowText r) sudahPresensi

/-- The parsed RPP page as `get_bantu_pic_entries` sees it: `panelRows` is
`none` when the Program Bantu panel xpath finds nothing, otherwise the rows
under the located panel. -/
structure BantuPage where
  panelRows : Option (List Row)

/-- Environment of one `get_bantu_pic_entries` call: the entry-point
program's `action` HTML and the RPP page fetch outcome (`none` models a
`RequestException`). -/
structure BantuEnv where
  action : String
  rppPage : Option BantuPage

/-- `get_bantu_pic_entries`: locate the RPP URL in the action HTML, fetch
the page, locate the Program Bantu panel — returning the empty list, not a
failure, when the panel is missing — then run the row loop. -/
def get_bantu_pic_entries (env : BantuEnv) : BanResult :=
  match search rppToks env.action with
  | none => .fail
  | some _ =>
    match env.rppPage with
    | none => .fail
    | some page =>
      match page.panelRows with
      | none => .ok []
      | some rows => bantuLoop rows.length [] rows

/-! ## Session manager (`get_simaster_session`)

Sessions are identified by opaque naturals.  The environment supplies the
cache-lookup result for `hash(username:password)` (md5 itself is not
modelled: the key only identifies one credential pair), the status of the
validation `GET` of the home page for the cached session, and the outcome
of the login `POST` (`none` covers `RequestException` from the request, from
`raise_for_status`, and from JSON decoding, all of which the `except`
clause catches; `some v` is the parsed `isLogin` field). -/

/-- Environment of one `get_simaster_session` call. -/
structure LoginEnv where
  cached : Option Nat
  validateStatus : Option Nat
  loginOutcome : Option (Option Int)
  fresh : Nat

/-- Result of one `get_simaster_session` call: the returned session,
the `cache.set` write (session, TTL seconds) if any, and how many login
`POST`s were sent. -/
structure LoginResult where
  result : Option Nat
  cacheWrite : Option (Nat × Nat)
  loginAttempts : Nat
deriving DecidableEq

/-- The fall-through path: one login `POST`; success iff `isLogin == 1`,
which also stores the fresh session with `timeout=86400`. -/
def loginStep (env : LoginEnv) : LoginResult :=
  match env.loginOutcome with
  | none => ⟨none, none, 1⟩
  | some isLogin =>
    if isLogin = some 1 then ⟨some env.fresh, some (env.fresh, 86400), 1⟩
    else ⟨none, none, 1⟩

/-- `get_simaster_session`: with `reuse_session`, a cached session that
validates with HTTP 200 is returned as-is; otherwise (no cache entry,
non-200 validation, or a validation exception) fall through to one fresh
login. -/
def get_simaster_session (env : LoginEnv) (reuse_session : Bool) : LoginResult :=
  match reuse_session, env.cached with
  | true, some s =>
    if env.validateStatus = some 200 then ⟨some s, none, 0⟩ else loginStep env
  | _, _ => loginStep env

/-! ## Program listing (`get_kkn_programs`)

The function navigates main page → logbook page, reads the CSRF token from
the session cookie jar, finds the data URL inside the logbook page's
JavaScript, posts the table query, and finally rotates the stored token
from the response's `csrf_value`. -/

/-- A program record from the data endpoint's `data` array. -/
structure Program where
  program_mhs_id : String
  action : String
deriving DecidableEq

/-- The parsed JSON body of the data endpoint response. -/
structure DataResp where
  csrf_value : Option String
  data : Option (List Program)

/-- Environment of one `get_kkn_programs` call: page texts (`none` models a
`RequestException`, including `raise_for_status`), the session cookie jar
as accumulated after each navigation step, and the data response
(`some none` models a body that fails JSON decoding). -/
structure KknEnv where
  mainPage : Option String
  logbookPage : Option String
  cookiesAfterNav : List (String × String)
  dataResp : Option (Option DataResp)

/-- Case-insensitive literal character (`re.IGNORECASE`). -/
def litCI (c : Char) : Tok := Tok.rep (fun d => d.toLower = c.toLower) 1 (some 1) false

/-- Compile a literal for a case-insensitive pattern. -/
def litsCI (s : String) : List Tok := s.data.map litCI

/-- The logbook link pattern
`<a href=['\"]([^'\"]*logbook_program[^'\"]*)['\"][^>]*>.*?Pelaksanaan Program.*?</a>`
with `re.IGNORECASE | re.DOTALL`. -/
def logbookLinkToks : List Tok :=
  litsCI "<a href=" ++ [Tok.rep quoteC 1 (some 1) false, Tok.gopen 1,
    Tok.rep notQuoteC 0 none false] ++ litsCI "logbook_program" ++
  [Tok.rep notQuoteC 0 none false, Tok.gclose 1, Tok.rep quoteC 1 (some 1) false,
   Tok.rep notGtC 0 none false, Tok.lit '>', Tok.rep anyC 0 none true] ++
  litsCI "Pelaksanaan Program" ++ [Tok.rep anyC 0 none true] ++ litsCI "</a>"

/-- The data-URL pattern
`'url'\s*:\s*[\"'](https://simaster\.ugm\.ac\.id/kkn/kkn/logbook_program_data/[^\"']+)`. -/
def dataUrlToks : List Tok :=
  [Tok.lit apos] ++ lits "url" ++ [Tok.lit apos, Tok.rep isWsC 0 none false,
   Tok.lit ':', Tok.rep isWsC 0 none false, Tok.rep quoteC 1 (some 1) false,
   Tok.gopen 1] ++ lits "https://simaster.ugm.ac.id/kkn/kkn/logbook_program_data/" ++
  [Tok.rep notQuoteC 1 none false, Tok.gclose 1]

/-- `get_kkn_programs`, returning the program list (or `none` on any caught
failure) together with the session cookie jar after the call. -/
def get_kkn_programs (env : KknEnv) : Option (List Program) × List (String × String) :=
  match env.mainPage with
  | none => (none, env.cookiesAfterNav)
  | some mp =>
    match search logbookLinkToks mp with
    | none => (none, env.cookiesAfterNav)
    | some _ =>
      match env.logbookPage with
      | none => (none, env.cookiesAfterNav)
      | some lp =>
        match lastCookie env.cookiesAfterNav "simasterUGM_cookie" with
        | none => (none, env.cookiesAfterNav)
        | some _token =>
          match search dataUrlToks lp with
          | none => (none, env.cookiesAfterNav)
          | some _ =>
            match env.dataResp with
            | none => (none, env.cookiesAfterNav)
            | some none => (none, env.cookiesAfterNav)
            | some (some dr) =>
              let jar :=
                match dr.csrf_value with
                | some v => if v ≠ "" then setCookie env.cookiesAfterNav "simasterUGM_cookie" v
                            else env.cookiesAfterNav
                | none => env.cookiesAfterNav
              (some (dr.data.getD []), jar)

/-! ## Form submission (`post_kkn_presensi`, `create_sub_entry_base`,
`add_kkn_logbook_entry`)

A submission response is its HTTP status code, its body as JSON — `none`
when the body does not decode, `some st` the value of its `status` field —
and the text of a `note note-danger` banner in the body's HTML when one is
present. -/

/-- A form-submission response. -/
structure SubmitResp where
  statusCode : Nat
  json : Option (Option String)
  banner : Option String
deriving DecidableEq

/-- A `<form>` element: its `action` attribute and its hidden inputs. -/
structure FormEl where
  action : Option String
  hidden : List (String × String)

/-- The token pattern `name="simasterUGM_token" value="(.+?)"`. -/
def tokenToks : List Tok :=
  lits "name=\"simasterUGM_token\" value=\"" ++
  [Tok.gopen 1, Tok.rep notNL 1 none true, Tok.gclose 1, Tok.lit '"']

/-- The add-link pattern `<a href='([^']+)'.*?title='Tambah'>`. -/
def tambahToks : List Tok :=
  lits "<a href=" ++ [Tok.lit apos, Tok.gopen 1, Tok.rep notAposC 1 none false,
    Tok.gclose 1, Tok.lit apos, Tok.rep notNL 0 none true] ++
  lits "title=" ++ [Tok.lit apos] ++ lits "Tambah" ++ [Tok.lit apos, Tok.lit '>']

/-- Environment of one `post_kkn_presensi` call: the attendance page text
and the submission response (`none` models a `RequestException`). -/
structure PresensiEnv where
  page : Option String
  resp : Option SubmitResp

/-- `post_kkn_presensi`: scrape the token from the page, post, then decide
success.  A JSON body decides by `status == "success"`; a non-JSON body is
always a failure (the banner text, when present, is only printed). -/
def post_kkn_presensi (env : PresensiEnv) : Bool :=
  match env.page with
  | none => false
  | some pg =>
    match search tokenToks pg with
    | none => false
    | some _token =>
      match env.resp with
      | none => false
      | some r =>
        if 400 ≤ r.statusCode then false
        else
          match r.json with
          | some st => st = some "success"
          | none => false

/-- Environment of one `create_sub_entry_base` call: the kegiatan page, the
form page, its parsed single `<form>`, and the submission response. -/
structure CreateSubEnv where
  kegiatanPage : Option String
  formPage : Option String
  form : Option FormEl
  resp : Option SubmitResp

/-- `create_sub_entry_base`: navigate kegiatan page → add form, post, then
decide success.  A JSON body decides by `status == "success"`; a non-JSON
body is a success exactly when the status code is 200 ("judging by status
code") — no banner is consulted. -/
def create_sub_entry_base (env : CreateSubEnv) : Bool :=
  match env.kegiatanPage with
  | none => false
  | some kp =>
    match search tambahToks kp with
    | none => false
    | some _ =>
      match env.formPage with
      | none => false
      | some _ =>
        match env.form with
        | none => false
        | some form =>
          match form.action with
          | none => false
          | some _ =>
            match env.resp with
            | none => false
            | some r =>
              if 400 ≤ r.statusCode then false
              else
                match r.json with
                | some st => st = some "success"
                | none => r.statusCode = 200

/-- Environment of one `add_kkn_logbook_entry` call: the program's `action`
HTML, the RPP page, the add page, its parsed form (id
`form-usulan-program`), and the submission response. -/
structure AddEntryEnv where
  action : String
  rppPage : Option String
  addPage : Option String
  form : Option FormEl
  resp : Option SubmitResp

/-- `add_kkn_logbook_entry`: navigate action → RPP page → add form, post,
then decide success.  A JSON body decides by `status == "success"`; a
non-JSON body raises `JSONDecodeError`, lands in the blanket `except`, and
is a failure. -/
def add_kkn_logbook_entry (env : AddEntryEnv) : Bool :=
  match search rppToks env.action with
  | none => false
  | some _ =>
    match env.rppPage with
    | none => false
    | some rp =>
      match search tambahToks rp with
      | none => false
      | some _ =>
        match env.addPage with
        | none => false
        | some _ =>
          match env.form with
          | none => false
          | some form =>
            match form.action with
            | none => false
            | some _ =>
              match env.resp with
              | none => false
              | some r =>
                if 400 ≤ r.statusCode then false
                else
                  match r.json with
                  | some st => st = some "success"
                  | none => false

/-- Modelled from the spec: the claimed ordered rule chain for interpreting
a form-submission response — JSON `status == "success"` is success, other
JSON is failure, a non-JSON body with an HTTP success code is a weak
success unless an error banner is present, which overrides it to failure. -/
def specChainVerdict (r : SubmitResp) : Bool :=
  match r.json with
  | some st => st = some "success"
  | none =>
    if 200 ≤ r.statusCode && r.statusCode < 300 then
      match r.banner with
      | none => true
      | some _ => false
    else false

/-! ## Attendance posting (`post_attendance_for_sub_entry`)

The function first calls `get_kkn_programs`, resolves the RPP URL and
fetches that page, resolves a token from the page response's cookies with
the session jar as fallback, scans the rows for the requested main entry
and sub-entry, and only then posts the attendance payload assembled from
the Presensi button's `ajaxify` URL.  The result pairs the returned boolean
with the payload of the `POST` that was issued, `none` when none was. -/

/-- The payload of the attendance `POST`. -/
structure AttendPayload where
  timelineId : String
  rppJenisProgram : String
  rppMhsId : String
  kegiatanMhsId : String
  programMhsId : String
  agreement : String
  latitude : String
  longtitude : String
  simasterUGM_token : String
deriving DecidableEq

/-- The RPP page fetch: the response's own cookies, the cookies the
response merged into the session jar, and the `datatables2` body rows. -/
structure RppFetch where
  respCookies : List (String × String)
  setCookies : List (String × String)
  rows : List Row

/-- Environment of one `post_attendance_for_sub_entry` call: the nested
`get_kkn_programs` environment, the RPP fetch, and the final `POST`'s
outcome (`none` models every exception path — transport, `raise_for_status`
and JSON decoding — all landing in the blanket `except`). -/
structure PostAttEnv where
  kkn : KknEnv
  rpp : Option RppFetch
  postResp : Option (Option String)

/-- The payload assembled from the last five non-empty `/`-separated
segments of the `ajaxify` URL, in the order
`timelineId, rppJenisProgram, rppMhsId, kegiatanMhsId, programMhsId`
(`url_parts[-5] .. url_parts[-1]`). -/
def attendPayloadOf (url lat lon tok : String) : AttendPayload :=
  let parts := (splitOnChar url '/').filter (· ≠ "")
  ⟨parts.getD (parts.length - 5) "", parts.getD (parts.length - 4) "",
   parts.getD (parts.length - 3) "", parts.getD (parts.length - 2) "",
   parts.getD (parts.length - 1) "", "1", lat, lon, tok⟩

/-- The inner `while j < len(rows)` loop: stop at the first row that is not
2 cells; inside the run, the first row containing the sought title is the
only candidate — a missing Presensi button or `ajaxify` attribute, or an
`ajaxify` URL with fewer than five non-empty segments (`IndexError`),
returns failure without posting; otherwise the payload is built from the
last five non-empty segments and posted. -/
def paScanInner (title tok lat lon : String) (postResp : Option (Option String)) :
    List Row → Bool × Option AttendPayload
  | [] => (false, none)
  | r :: rest =>
    if r.cells.length ≠ 2 then (false, none)
    else if strContains (rowText r) title then
      match (r.anchors.filter (fun a => strContains a.text "Presensi")).head? with
      | none => (false, none)
      | some btn =>
        match btn.ajaxify with
        | none => (false, none)
        | some url =>
          let parts := (splitOnChar url '/').filter (· ≠ "")
          if parts.length < 5 then (false, none)
          else
            match postResp with
            | none => (false, some (attendPayloadOf url lat lon tok))
            | some st => (st = some "success", some (attendPayloadOf url lat lon tok))
    else paScanInner title tok lat lon postResp rest

/-- The outer `while i < len(rows)` loop: find the first 5-cell row whose
first cell converts to the requested index (a `ValueError` on any 5-cell
row encountered on the way aborts the call with `False`), then hand over to
the inner loop. -/
def paScanOuter (idx : Int) (title tok lat lon : String)
    (postResp : Option (Option String)) : List Row → Bool × Option AttendPayload
  | [] => (false, none)
  | r :: rest =>
    if r.cells.length = 5 then
      match pyInt? (trimS (cellTextAt r 0)) with
      | none => (false, none)
      | some n =>
        if n = idx then paScanInner title tok lat lon postResp rest
        else paScanOuter idx title tok lat lon postResp rest
    else paScanOuter idx title tok lat lon postResp rest

/-- Token resolution for the attendance `POST`: the RPP response's own
cookies first, the session jar — as left by `get_kkn_programs` and then
merged with the RPP response's set-cookies — as fallback. -/
def rppToken? (rf : RppFetch) (jar1 : List (String × String)) : Option String :=
  match lastCookie rf.respCookies "simasterUGM_cookie" with
  | some t => some t
  | none =>
    lastCookie (rf.setCookies.foldl (fun j kv => setCookie j kv.1 kv.2) jar1)
      "simasterUGM_cookie"

/-- `post_attendance_for_sub_entry`. -/
def post_attendance_for_sub_entry (env : PostAttEnv) (program_mhs_id : String)
    (main_entry_index : Int) (sub_entry_title_to_find : String)
    (lat lon : String) : Bool × Option AttendPayload :=
  let kknOut := get_kkn_programs env.kkn
  match kknOut.1 with
  | none => (false, none)
  | some programs =>
    if programs = [] then (false, none)
    else
      match programs.find? (fun p => p.program_mhs_id = program_mhs_id) with
      | none => (false, none)
      | some target =>
        match search rppToks target.action with
        | none => (false, none)
        | some _ =>
          match env.rpp with
          | none => (false, none)
          | some rf =>
            match rppToken? rf kknOut.2 with
            | none => (false, none)
            | some tok =>
              paScanOuter main_entry_index sub_entry_title_to_find tok lat lon
                env.postResp rf.rows

/-! ## Geo randomizer (`generate_random_point`, utils.py)

Floating-point arithmetic is idealised over the reals; the two
`random.random()` draws are explicit arguments in `[0, 1)`. -/

/-- The WGS84 equatorial radius constant used by the code. -/
noncomputable def earth_radius : ℝ := 6378137

/-- `generate_random_point(lat, lon, radius_m)` with the two uniform draws
`u` (for the distance) and `t` (for the angle) passed explicitly. -/
noncomputable def generate_random_point (lat lon radius_m u t : ℝ) : ℝ × ℝ :=
  let random_dist := Real.sqrt u * radius_m
  let random_angle := 2 * Real.pi * t
  let delta_lat_rad := (random_dist / earth_radius) * Real.sin random_angle
  let delta_lon_rad :=
    (random_dist / (earth_radius * Real.cos (lat * Real.pi / 180))) * Real.cos random_angle
  (lat + delta_lat_rad * 180 / Real.pi, lon + delta_lon_rad * 180 / Real.pi)

/-- Distance between two degree coordinates in the equirectangular
approximation the function uses: scale the latitude difference and the
`cos`-corrected longitude difference (both in radians) by the earth
radius. -/
noncomputable def equirectDist (lat lon lat2 lon2 : ℝ) : ℝ :=
  let dphi := (lat2 - lat) * Real.pi / 180
  let dlam := (lon2 - lon) * Real.pi / 180
  earth_radius * Real.sqrt (dphi ^ 2 + (Real.cos (lat * Real.pi / 180) * dlam) ^ 2)

/-- A 5-cell row whose first stripped cell converts to the sought index. -/
def MainRowMatch (idx : Int) (r : Row) : Prop :=
  r.cells.length = 5 ∧ pyInt? (trimS (cellTextAt r 0)) = some idx

instance (idx : Int) (r : Row) : Decidable (MainRowMatch idx r) := by
  unfold MainRowMatch
  infer_instance

/-- The sought sub-entry title occurs in the consecutive 2-cell run that
follows a main row. -/
def TitleInRun (title : String) (rest : List Row) : Prop :=
  ∃ x ∈ rest.takeWhile (fun r => decide (r.cells.length = 2)),
    strContains (rowText x) title = true

instance (title : String) (rest : List Row) : Decidable (TitleInRun title rest) := by
  unfold TitleInRun
  infer_instance

/-! ## Concrete sample inputs used by witnesses and counterexamples -/

/-- The apostrophe as a one-character string. -/
def aposS : String := String.mk [apos]

/-- A program `action` fragment containing an RPP link. -/
def sampleRppAction : String :=
  "href=" ++ aposS ++ "/a/logbook_program_rpp/b" ++ aposS

/-- A 6-cell Program Bantu main row. -/
def bantuMainRow : Row :=
  ⟨[tcell "1", tcell "Bantu A", tcell "x", tcell "Budi", tcell "3 Juli 2025",
    tcell "Posko"], []⟩

/-- A 2-cell Program Bantu sub-entry row whose own text carries the
attendance marker. -/
def bantuSubMarkerRow : Row :=
  ⟨[tcell "", tcell "Kerja (3 Juli 2025 10:00 - 12:00 WIB) [2 Jam] Sudah Presensi"], []⟩

/-- A 2-cell Program Bantu sub-entry row without the marker. -/
def bantuSubPlainRow : Row :=
  ⟨[tcell "", tcell "Kerja (3 Juli 2025 10:00 - 12:00 WIB) [2 Jam]"], []⟩

/-- A skipped 1-cell filler row. -/
def fillerRow : Row := ⟨[tcell "x"], []⟩

/-- A 1-cell row carrying the attendance marker. -/
def markerRow : Row := ⟨[tcell "Sudah Presensi"], []⟩

/-- A 5-cell logbook main row with index 1. -/
def logbookMainRow : Row :=
  ⟨[tcell "1", tcell "Program A", tcell "1 Juli 2025", tcell "Posko", tcell ""], []⟩

/-- An attended logbook sub-entry row. -/
def logbookSubAttRow : Row :=
  ⟨[tcell "", tcell "Tugas (1 Juli 2025 10:00 - 12:00 WIB) [2 Jam] Sudah Presensi"], []⟩

/-- A not-attended logbook sub-entry row. -/
def logbookSubNoRow : Row :=
  ⟨[tcell "", tcell "Piket (2 Juli 2025 10:00 - 12:00 WIB) [2 Jam]"], []⟩

/-- A 5-cell row whose first cell is not an integer. -/
def logbookBadMainRow : Row :=
  ⟨[tcell "x", tcell "", tcell "", tcell "", tcell ""], []⟩

/-- A row list exercising the row classifier: main row, one sub row, a
skipped 3-cell row, a second main row. -/
def sampleLogbookRows : List Row :=
  [logbookMainRow, logbookSubAttRow, ⟨[tcell "a", tcell "b", tcell "c"], []⟩,
   ⟨[tcell "2", tcell "Program B", tcell "2 Juli 2025", tcell "Posko", tcell ""], []⟩]

/-- A page fragment containing a Tambah (add) link. -/
def sampleTambahPage : String :=
  "<a href=" ++ aposS ++ "/add/x" ++ aposS ++ " title=" ++ aposS ++ "Tambah" ++ aposS ++ ">"

/-- A page fragment containing the hidden token input. -/
def sampleTokenPage : String := "name=\"simasterUGM_token\" value=\"tok123\""

/-! ## Theorems -/

/-- The inner loop computes exactly the take-while/drop-while split of the
sub-shaped row run. -/
theorem subRun_eq (rows : List Row) :
    subRun rows = ((rows.takeWhile isSubRow).map mkSubEntry,
                   rows.dropWhile isSubRow) := by
  induction rows with
  | nil => simp [subRun]
  | cons r rest ih =>
    by_cases h : isSubRow r
    · simp [subRun, h, List.takeWhile_cons, List.dropWhile_cons, ih]
    · simp [subRun, h, List.takeWhile_cons, List.dropWhile_cons]

/-- Membership survives `dropWhile`. -/
theorem mem_of_mem_dropWhile {x : Row} {p : Row → Bool} {l : List Row}
    (h : x ∈ l.dropWhile p) : x ∈ l := by
  induction l with
  | nil => simp at h
  | cons r rest ih =>
    by_cases hp : p r
    · simp only [List.dropWhile_cons, hp, if_pos] at h
      exact List.mem_cons_of_mem r (ih h)
    · simpa [List.dropWhile_cons, hp] using h

/-- Dropping a while-prefix never lengthens a list. -/
theorem dropWhile_len_le (p : Row → Bool) (l : List Row) :
    (l.dropWhile p).length ≤ l.length := by
  induction l with
  | nil => simp
  | cons r rest ih =>
    by_cases h : p r
    · simp only [List.dropWhile_cons, h, if_pos]
      exact Nat.le_succ_of_le ih
    · simp [List.dropWhile_cons, h]

/-- Core equivalence behind claim C3, fuel-generalised: with enough fuel and
when every 5-cell row's first cell parses as an integer (so the `int(...)`
call cannot raise), the loop produces exactly the specification's
grouping. -/
theorem logbookLoop_eq_spec (fuel : Nat) (rows : List Row) (hf : rows.length ≤ fuel)
    (h : ∀ r ∈ rows, r.cells.length = 5 → (mkMainEntry? r).isSome) :
    logbookLoop fuel rows = some (specRpp rows) := by
  induction fuel, rows using logbookLoop.induct with
  | case1 t => simp [logbookLoop, specRpp]
  | case2 r rest =>
    simp at hf
  | case3 fuel r rest h5 hnone =>
    have := h r (List.mem_cons_self r rest) h5
    rw [hnone] at this
    simp at this
  | case4 fuel r rest h5 core hcore sr hrec ih =>
    have hsub : ∀ x ∈ (subRun rest).2, x.cells.length = 5 → (mkMainEntry? x).isSome := by
      intro x hx
      have hx2 : x ∈ rest := by
        rw [subRun_eq] at hx
        exact mem_of_mem_dropWhile hx
      exact h x (List.mem_cons_of_mem r hx2)
    have hlen : (subRun rest).2.length ≤ fuel := by
      rw [subRun_eq]
      show (List.dropWhile isSubRow rest).length ≤ fuel
      have h1 := dropWhile_len_le isSubRow rest
      simp only [List.length_cons] at hf
      omega
    have := ih hlen hsub
    rw [hrec] at this
    simp at this
  | case5 fuel r rest h5 core hcore sr es hes ih =>
    have hsub : ∀ x ∈ (subRun rest).2, x.cells.length = 5 → (mkMainEntry? x).isSome := by
      intro x hx
      have hx2 : x ∈ rest := by
        rw [subRun_eq] at hx
        exact mem_of_mem_dropWhile hx
      exact h x (List.mem_cons_of_mem r hx2)
    have hlen : (subRun rest).2.length ≤ fuel := by
      rw [subRun_eq]
      show (List.dropWhile isSubRow rest).length ≤ fuel
      have h1 := dropWhile_len_le isSubRow rest
      simp only [List.length_cons] at hf
      omega
    have h2 := subRun_eq rest
    have hrec := ih hlen hsub
    rw [hes] at hrec
    injection hrec with hv
    rw [logbookLoop, specRpp]
    simp only [h5, if_pos, hcore]
    rw [show logbookLoop fuel (subRun rest).2 = some es from hes]
    rw [hv]
    have hsr2 : specRpp sr.2 = specRpp (List.dropWhile isSubRow rest) := by
      show specRpp (subRun rest).2 = _
      rw [h2]
    rw [hsr2]
    have hent : specEntryOf r (List.takeWhile isSubRow rest) =
        { core with sub_entries := (subRun rest).1,
                    attendance_status := statusOf (subRun rest).1 } := by
      rw [specEntryOf, hcore, h2]
      simp
    rw [hent]
  | case6 fuel r rest h5 ih =>
    have hr : ∀ x ∈ rest, x.cells.length = 5 → (mkMainEntry? x).isSome :=
      fun x hx => h x (List.mem_cons_of_mem r hx)
    have hlen : rest.length ≤ fuel := by
      simp only [List.length_cons] at hf
      omega
    rw [logbookLoop, specRpp]
    simp only [h5, if_neg]
    exact ih hlen hr

/-- A 5-cell row whose first cell parses as an integer yields a main-entry
record. -/
theorem mkMainEntry_isSome_of_int {r : Row} (h5 : r.cells.length = 5)
    (h : (pyInt? (trimS (cellTextAt r 0))).isSome) : (mkMainEntry? r).isSome := by
  obtain ⟨cells, anchors⟩ := r
  match cells, h5 with
  | [c0, c1, c2, c3, c4], _ =>
    simp only [cellTextAt, List.drop, List.headD] at h
    obtain ⟨n, hn⟩ := Option.isSome_iff_exists.mp h
    simp [mkMainEntry?, hn]

/-- C1: the portal's `[attended, not attended]` sub-entry run is aggregated
by the code to the overall status "Sudah Presensi" — the first sub-entry
being attended fixes `all_sub_attended` permanently — although the spec and
the claim require "Belum Presensi" whenever any sub-entry is unattended. -/
theorem C1_mixed_attendance_eval :
    (get_logbook_entries_by_id [logbookMainRow, logbookSubAttRow, logbookSubNoRow]).map
      (fun es => es.map (fun e => (e.attendance_status, e.sub_entries.map SubE.is_attended)))
      = some [("Sudah Presensi", [true, false])] := by decide

/-- C3 counterexample: a 5-cell row whose first cell is not an integer does
not start a MainEntry — the `int(...)` call raises and the whole call
returns `None`, so no record at all is produced. -/
theorem C3_counterexample :
    logbookBadMainRow.cells.length = 5 ∧
    get_logbook_entries_by_id [logbookBadMainRow] = none := by decide

/-- C3 (amended): provided every 5-cell row's first cell parses as an
integer, the row classifier behaves exactly as claimed — a 5-cell row
starts a new MainEntry, its sub-entries are exactly the maximal run of
consecutive 2-cell empty-first-cell rows immediately following it, and
every other row is skipped. -/
theorem C3_row_classification (rows : List Row)
    (h : ∀ r ∈ rows, r.cells.length = 5 → (pyInt? (trimS (cellTextAt r 0))).isSome) :
    get_logbook_entries_by_id rows = some (specRpp rows) :=
  logbookLoop_eq_spec rows.length rows le_rfl
    (fun r hr h5 => mkMainEntry_isSome_of_int h5 (h r hr h5))

/-- C3 witness: the classifier applied to a concrete table with a main row,
one sub-row, a skipped 3-cell row and a second main row. -/
theorem C3_witness :
    (∀ r ∈ sampleLogbookRows, r.cells.length = 5 →
        (pyInt? (trimS (cellTextAt r 0))).isSome) ∧
    get_logbook_entries_by_id sampleLogbookRows = some (specRpp sampleLogbookRows) :=
  ⟨by decide, C3_row_classification sampleLogbookRows (by decide)⟩

/-- C4 counterexample: when the Program Bantu panel is missing,
`get_bantu_pic_entries` returns the empty list — indistinguishable from a
successfully parsed page with no entries — not the failure value `None`. -/
theorem C4_counterexample :
    get_bantu_pic_entries ⟨sampleRppAction, some ⟨none⟩⟩ = BanResult.ok [] ∧
    BanResult.ok [] ≠ BanResult.fail := by decide

/-- C4 (amended): `get_bantu_pic_entries` returns `None` on a missing RPP
link or a failed page fetch, but a missing Program Bantu panel yields the
empty list, not a distinguishable failure. -/
theorem C4_failure_modes :
    (∀ env : BantuEnv, (search rppToks env.action).isSome →
        env.rppPage = some ⟨none⟩ → get_bantu_pic_entries env = BanResult.ok []) ∧
    (∀ env : BantuEnv, (search rppToks env.action).isSome →
        env.rppPage = none → get_bantu_pic_entries env = BanResult.fail) ∧
    (∀ env : BantuEnv, search rppToks env.action = none →
        get_bantu_pic_entries env = BanResult.fail) := by
  refine ⟨?_, ?_, ?_⟩
  · intro env hs hp
    obtain ⟨caps, hc⟩ := Option.isSome_iff_exists.mp hs
    simp [get_bantu_pic_entries, hc, hp]
  · intro env hs hp
    obtain ⟨caps, hc⟩ := Option.isSome_iff_exists.mp hs
    simp [get_bantu_pic_entries, hc, hp]
  · intro env hs
    simp [get_bantu_pic_entries, hs]

/-- C4 witness: the panel-missing branch on a concrete environment. -/
theorem C4_witness :
    (search rppToks sampleRppAction).isSome ∧
    get_bantu_pic_entries ⟨sampleRppAction, some ⟨none⟩⟩ = BanResult.ok [] :=
  ⟨by decide, C4_failure_modes.1 ⟨sampleRppAction, some ⟨none⟩⟩ (by decide) rfl⟩

/-- An `Option` whose `isSome` is `false` is `none`. -/
theorem isSome_false_eq_none {α : Type} {o : Option α} (h : o.isSome = false) :
    o = none := by
  cases o with
  | none => rfl
  | some v => simp at h

/-- When a month name is not in the table, the `datetime` build fails
(`KeyError`). -/
theorem dtOfGroups_none_of_month {d mn y t : String}
    (h : MONTH_MAP.lookup mn = none) : dtOfGroups? d mn y t = none := by
  simp [dtOfGroups?, h]

/-- C5: `parse_datetime_range` parses the same-day and overnight examples to
the claimed bounds, and any string recognised by neither pattern (with
table months) yields `(None, None)` rather than an error. -/
theorem C5_parse_datetime_range :
    parse_datetime_range (some "2 Juli 2025 13:00 - 16:00") =
      (some ⟨2025, 7, 2, 13, 0⟩, some ⟨2025, 7, 2, 16, 0⟩) ∧
    parse_datetime_range (some "8 Juli 2025 19:00 s.d 9 Juli 2025 00:00") =
      (some ⟨2025, 7, 8, 19, 0⟩, some ⟨2025, 7, 9, 0, 0⟩) ∧
    ∀ s, matchesEitherFormat s = false →
      parse_datetime_range (some s) = (none, none) := by
  refine ⟨by decide, by decide, ?_⟩
  intro s hm
  by_cases h0 : s = ""
  · simp [parse_datetime_range, h0]
  · rw [parse_datetime_range]
    simp only [h0, if_false]
    rw [matchesEitherFormat] at hm
    cases hov : search overnightToks (normalizeDtStr s) with
    | some caps =>
      rw [hov] at hm
      simp only [Bool.and_eq_false_iff] at hm
      have h45 : dtOfGroups? (capt caps 1) (capt caps 2) (capt caps 3) (capt caps 4) = none
          ∨ dtOfGroups? (capt caps 5) (capt caps 6) (capt caps 7) (capt caps 8) = none := by
        rcases hm with hm | hm
        · exact Or.inl (dtOfGroups_none_of_month (isSome_false_eq_none hm))
        · exact Or.inr (dtOfGroups_none_of_month (isSome_false_eq_none hm))
      rcases h45 with h45 | h45
      · simp [h45]
      · cases h1 : dtOfGroups? (capt caps 1) (capt caps 2) (capt caps 3) (capt caps 4) with
        | none => simp [h1]
        | some a => simp [h1, h45]
    | none =>
      rw [hov] at hm
      cases hsd : search samedayToks (normalizeDtStr s) with
      | some caps =>
        rw [hsd] at hm
        have h1 : dtOfGroups? (capt caps 1) (capt caps 2) (capt caps 3) (capt caps 4) = none :=
          dtOfGroups_none_of_month (isSome_false_eq_none hm)
        simp [h1]
      | none => simp

/-- C5 witness: an unrecognised string goes through the `(None, None)`
fall-through. -/
theorem C5_witness :
    matchesEitherFormat "halo dunia" = false ∧
    parse_datetime_range (some "halo dunia") = (none, none) :=
  ⟨by decide, C5_parse_datetime_range.2.2 "halo dunia" (by decide)⟩

/-- C6: with `reuse_session`, a cached session that validates with HTTP 200
is returned as-is with no login `POST`; in every other situation exactly one
login `POST` is attempted, the fresh session is returned iff the login JSON
has `isLogin == 1` — in which case it is cached with an 86400-second TTL —
and any network failure or non-success signal yields `None` with no internal
retry. -/
theorem C6_session_reuse_and_login (env : LoginEnv) :
    (∀ s, env.cached = some s → env.validateStatus = some 200 →
        get_simaster_session env true = ⟨some s, none, 0⟩) ∧
    ((env.cached = none ∨ env.validateStatus ≠ some 200) →
      (get_simaster_session env true).loginAttempts = 1 ∧
      ((get_simaster_session env true).result = some env.fresh ↔
        env.loginOutcome = some (some 1)) ∧
      (env.loginOutcome = some (some 1) →
        (get_simaster_session env true).cacheWrite = some (env.fresh, 86400)) ∧
      (env.loginOutcome ≠ some (some 1) →
        get_simaster_session env true = ⟨none, none, 1⟩)) := by
  have hstep : (loginStep env).loginAttempts = 1 ∧
      ((loginStep env).result = some env.fresh ↔
        env.loginOutcome = some (some 1)) ∧
      (env.loginOutcome = some (some 1) →
        (loginStep env).cacheWrite = some (env.fresh, 86400)) ∧
      (env.loginOutcome ≠ some (some 1) → loginStep env = ⟨none, none, 1⟩) := by
    cases hlo : env.loginOutcome with
    | none =>
      refine ⟨by simp [loginStep, hlo], by simp [loginStep, hlo], ?_, ?_⟩
      · intro hcontr
        exact Option.noConfusion hcontr
      · intro _
        simp [loginStep, hlo]
    | some v =>
      by_cases hv : v = some 1
      · refine ⟨by simp [loginStep, hlo, hv], by simp [loginStep, hlo, hv],
          fun _ => by simp [loginStep, hlo, hv], ?_⟩
        intro hcontr
        rw [hv] at hcontr
        exact absurd rfl hcontr
      · refine ⟨by simp [loginStep, hlo, hv], by simp [loginStep, hlo, hv], ?_, ?_⟩
        · intro hcontr
          injection hcontr with hcontr
          exact absurd hcontr hv
        · intro _
          simp [loginStep, hlo, hv]
  constructor
  · intro s hc hv
    simp [get_simaster_session, hc, hv]
  · intro hcase
    have hred : get_simaster_session env true = loginStep env := by
      cases hc : env.cached with
      | none => simp [get_simaster_session, hc]
      | some s =>
        rcases hcase with hcase | hcase
        · rw [hc] at hcase
          exact Option.noConfusion hcase
        · simp [get_simaster_session, hc, hcase]
    rw [hred]
    exact hstep

/-- C6 witness: a cached session validating with HTTP 200 is returned with
no login attempt. -/
theorem C6_witness :
    get_simaster_session ⟨some 7, some 200, none, 9⟩ true = ⟨some 7, none, 0⟩ :=
  (C6_session_reuse_and_login ⟨some 7, some 200, none, 9⟩).1 7 rfl rfl

/-- C7 counterexample: a sub-entry row that is the last row of the table is
parsed with `is_attended = false` even though its own row text carries the
"Sudah Presensi" marker — the lookahead block is guarded by
`(i + 1) < len(rows)`, so the row's own text is never checked. -/
theorem C7_counterexample :
    strContains (rowText bantuSubMarkerRow) sudahPresensi = true ∧
    get_bantu_pic_entries ⟨sampleRppAction,
        some ⟨some [bantuMainRow, bantuSubMarkerRow]⟩⟩ =
      BanResult.ok [⟨1, "Bantu A", "Budi", "3 Juli 2025", "Posko",
        [⟨"Kerja", "3 Juli 2025 10:00 - 12:00 WIB", false⟩]⟩] := by decide

/-- C7 (amended): a parsed Program Bantu sub-entry is attended iff a
following row exists and the marker appears in its own row or one of the
next two rows — a sub-entry row that is the last table row is never checked
and is recorded as not attended.  The loop equation states this for every
sub-entry step, and the closed conjuncts exercise the marker being found on
the row after next and on the row itself. -/
theorem C7_attendance_lookahead :
    (∀ (fuel : Nat) (acc : List PicMain) (r : Row) (rest : List Row)
        (caps : List (Nat × String)),
        r.cells.length = 2 → acc ≠ [] →
        searchAnchored bantuSubToks (trimS (cellTextAt r 1)) = some caps →
        bantuLoop (fuel + 1) acc (r :: rest) =
          bantuLoop fuel
            (appendSubToLast acc ⟨trimS (capt caps 1), trimS (capt caps 2),
              bantuAttendedCond r rest⟩)
            (if bantuAttendedCond r rest then rest.drop 1 else rest)) ∧
    get_bantu_pic_entries ⟨sampleRppAction,
        some ⟨some [bantuMainRow, bantuSubPlainRow, fillerRow, markerRow]⟩⟩ =
      BanResult.ok [⟨1, "Bantu A", "Budi", "3 Juli 2025", "Posko",
        [⟨"Kerja", "3 Juli 2025 10:00 - 12:00 WIB", true⟩]⟩] ∧
    get_bantu_pic_entries ⟨sampleRppAction,
        some ⟨some [bantuMainRow, bantuSubMarkerRow, fillerRow]⟩⟩ =
      BanResult.ok [⟨1, "Bantu A", "Budi", "3 Juli 2025", "Posko",
        [⟨"Kerja", "3 Juli 2025 10:00 - 12:00 WIB", true⟩]⟩] := by
  refine ⟨?_, by decide, by decide⟩
  intro fuel acc r rest caps h2 hacc hs
  rw [bantuLoop]
  have h6 : (r.cells.length = 6 && trimS (cellTextAt r 0) ≠ "") = false := by
    simp [h2]
  have h2a : (r.cells.length = 2 && acc ≠ []) = true := by
    simp [h2, hacc]
  rw [h6]
  simp only [Bool.false_eq_true, if_false, h2a, if_true, hs]
  cases rest with
  | nil => simp [bantuAttendedCond]
  | cons r2 rest2 =>
    rw [bantuAttendedCond.eq_def]
    by_cases hatt : (strContains (rowText r2) sudahPresensi
        || strContains (match rest2 with | r3 :: _ => rowText r3 | [] => "") sudahPresensi
        || strContains (rowText r) sudahPresensi) = true
    · simp only [hatt, if_true, List.drop_succ_cons, List.drop_zero]
    · simp only [Bool.not_eq_true] at hatt
      simp only [hatt, Bool.false_eq_true, if_false]

/-- C7 witness: one loop step on a concrete sub-entry row that ends the
table, instantiating the amended lookahead equation. -/
theorem C7_witness :
    bantuSubMarkerRow.cells.length = 2 ∧
    ([(⟨1, "Bantu A", "Budi", "3 Juli 2025", "Posko", []⟩ : PicMain)] ≠ []) ∧
    searchAnchored bantuSubToks (trimS (cellTextAt bantuSubMarkerRow 1)) =
      some [(3, "2 Jam"), (2, "3 Juli 2025 10:00 - 12:00 WIB"), (1, "Kerja")] ∧
    bantuLoop 1 [(⟨1, "Bantu A", "Budi", "3 Juli 2025", "Posko", []⟩ : PicMain)] [bantuSubMarkerRow] =
      bantuLoop 0
        (appendSubToLast [(⟨1, "Bantu A", "Budi", "3 Juli 2025", "Posko", []⟩ : PicMain)]
          ⟨trimS (capt [(3, "2 Jam"), (2, "3 Juli 2025 10:00 - 12:00 WIB"), (1, "Kerja")] 1), trimS (capt [(3, "2 Jam"), (2, "3 Juli 2025 10:00 - 12:00 WIB"), (1, "Kerja")] 2),
           bantuAttendedCond bantuSubMarkerRow []⟩)
        (if bantuAttendedCond bantuSubMarkerRow [] then List.drop 1 ([] : List Row)
         else []) :=
  ⟨by decide, by decide, by decide,
   C7_attendance_lookahead.1 0 [(⟨1, "Bantu A", "Budi", "3 Juli 2025", "Posko", []⟩ : PicMain)] bantuSubMarkerRow [] [(3, "2 Jam"), (2, "3 Juli 2025 10:00 - 12:00 WIB"), (1, "Kerja")]
     (by decide) (by decide) (by decide)⟩

/-- C2 counterexample: `create_sub_entry_base` treats a non-JSON response
with HTTP 200 and an error banner present as a success, while the claimed
rule chain says the banner overrides the weak-success signal into a
failure. -/
theorem C2_counterexample :
    create_sub_entry_base ⟨some sampleTambahPage, some "", some ⟨some "/submit", []⟩,
        some ⟨200, none, some "Gagal menyimpan"⟩⟩ = true ∧
    specChainVerdict ⟨200, none, some "Gagal menyimpan"⟩ = false := by decide

/-- C2 (amended): a JSON body decides success by `status == "success"` in
all three submitters; a non-JSON body is a failure in `post_kkn_presensi`
(the banner text is only extracted for the log) and in
`add_kkn_logbook_entry`, while `create_sub_entry_base` calls a non-JSON
body with status code exactly 200 a success, never consulting the banner. -/
theorem C2_response_interpretation :
    (∀ (pg : String) (r : SubmitResp),
        (search tokenToks pg).isSome → r.statusCode < 400 →
        post_kkn_presensi ⟨some pg, some r⟩ =
          match r.json with
          | some st => decide (st = some "success")
          | none => false) ∧
    (∀ (kp fp a : String) (hid : List (String × String)) (r : SubmitResp),
        (search tambahToks kp).isSome → r.statusCode < 400 →
        create_sub_entry_base ⟨some kp, some fp, some ⟨some a, hid⟩, some r⟩ =
          match r.json with
          | some st => decide (st = some "success")
          | none => decide (r.statusCode = 200)) ∧
    (∀ (act rp ap a : String) (hid : List (String × String)) (r : SubmitResp),
        (search rppToks act).isSome → (search tambahToks rp).isSome →
        r.statusCode < 400 →
        add_kkn_logbook_entry ⟨act, some rp, some ap, some ⟨some a, hid⟩, some r⟩ =
          match r.json with
          | some st => decide (st = some "success")
          | none => false) := by
  refine ⟨?_, ?_, ?_⟩
  · intro pg r hs hlt
    obtain ⟨caps, hc⟩ := Option.isSome_iff_exists.mp hs
    have h4 : ¬(400 ≤ r.statusCode) := by omega
    simp only [post_kkn_presensi, hc, h4, if_false]
  · intro kp fp a hid r hs hlt
    obtain ⟨caps, hc⟩ := Option.isSome_iff_exists.mp hs
    have h4 : ¬(400 ≤ r.statusCode) := by omega
    simp only [create_sub_entry_base, hc, h4, if_false]
  · intro act rp ap a hid r hs1 hs2 hlt
    obtain ⟨caps1, hc1⟩ := Option.isSome_iff_exists.mp hs1
    obtain ⟨caps2, hc2⟩ := Option.isSome_iff_exists.mp hs2
    have h4 : ¬(400 ≤ r.statusCode) := by omega
    simp only [add_kkn_logbook_entry, hc1, hc2, h4, if_false]

/-- C2 witness: a non-JSON HTTP-200 response with no banner is still a
failure in `post_kkn_presensi`. -/
theorem C2_witness :
    post_kkn_presensi ⟨some sampleTokenPage, some ⟨200, none, none⟩⟩ = false := by
  have h := C2_response_interpretation.1 sampleTokenPage ⟨200, none, none⟩
    (by decide) (by decide)
  rw [h]

/-- Folding the last-match scan from an arbitrary accumulator factors
through the `none`-started scan. -/
theorem lastCookie_acc (n : String) (l : List (String × String)) (acc : Option String) :
    l.foldl (fun a kv => if kv.1 = n then some kv.2 else a) acc
      = match l.foldl (fun a kv => if kv.1 = n then some kv.2 else a) none with
        | some v => some v
        | none => acc := by
  induction l generalizing acc with
  | nil => rfl
  | cons kv rest ih =>
    simp only [List.foldl_cons]
    rw [ih (if kv.1 = n then some kv.2 else acc),
        ih (if kv.1 = n then some kv.2 else none)]
    cases hrest : rest.foldl (fun a kv => if kv.1 = n then some kv.2 else a) none with
    | some v => rfl
    | none =>
      by_cases h : kv.1 = n
      · simp [h]
      · simp [h]

/-- If every entry named `n` carries value `v`, the last-match scan returns
nothing or `v`. -/
theorem lastCookie_val {v : String} (n : String) (l : List (String × String))
    (h : ∀ kv ∈ l, kv.1 = n → kv.2 = v) :
    lastCookie l n = none ∨ lastCookie l n = some v := by
  induction l with
  | nil => exact Or.inl rfl
  | cons kv rest ih =>
    have ih2 := ih (fun x hx => h x (List.mem_cons_of_mem kv hx))
    rw [lastCookie, List.foldl_cons, lastCookie_acc]
    rcases ih2 with h2 | h2 <;> rw [lastCookie] at h2 <;> rw [h2]
    · by_cases hk : kv.1 = n
      · exact Or.inr (by simp [hk, h kv (List.mem_cons_self kv rest) hk])
      · exact Or.inl (by simp [hk])
    · exact Or.inr rfl

/-- An entry named `n` guarantees the last-match scan finds something. -/
theorem lastCookie_isSome_of_mem {n : String} {kv : String × String}
    {l : List (String × String)} (h : kv ∈ l) (hn : kv.1 = n) :
    (lastCookie l n).isSome := by
  induction l with
  | nil => simp at h
  | cons kv2 rest ih =>
    rw [lastCookie, List.foldl_cons, lastCookie_acc]
    rcases List.mem_cons.mp h with h2 | h2
    · cases hrest : rest.foldl (fun a kv => if kv.1 = n then some kv.2 else a) none with
      | some w => simp
      | none => subst h2; simp [hn]
    · have := ih h2
      rw [lastCookie] at this
      obtain ⟨w, hw⟩ := Option.isSome_iff_exists.mp this
      rw [hw]
      simp

/-- After `cookies.set n v`, reading cookie `n` yields `v`. -/
theorem lastCookie_setCookie (jar : List (String × String)) (n v : String) :
    lastCookie (setCookie jar n v) n = some v := by
  rw [setCookie]
  by_cases hf : jar.filter (·.1 = n) = []
  · simp only [hf, if_pos]
    rw [lastCookie, List.foldl_append]
    simp
  · simp only [hf, if_false]
    have hmem : ∃ kv ∈ jar, kv.1 = n := by
      rcases hne : jar.filter (·.1 = n) with _ | ⟨kv, rest⟩
      · exact absurd hne hf
      · have hm : kv ∈ jar.filter (·.1 = n) := by
          rw [hne]; exact List.mem_cons_self kv rest
        have h2 := List.mem_filter.mp hm
        exact ⟨kv, h2.1, of_decide_eq_true h2.2⟩
    obtain ⟨kv, hkm, hkn⟩ := hmem
    have hall : ∀ x ∈ jar.map (fun kv => if kv.1 = n then (n, v) else kv),
        x.1 = n → x.2 = v := by
      intro x hx hxn
      obtain ⟨y, hy, hxy⟩ := List.mem_map.mp hx
      by_cases hyn : y.1 = n
      · rw [← hxy]
        simp [hyn]
      · rw [← hxy] at hxn
        rw [if_neg hyn] at hxn
        exact absurd hxn hyn
    have hsome : (lastCookie (jar.map (fun kv => if kv.1 = n then (n, v) else kv)) n).isSome := by
      have hmm : (n, v) ∈ jar.map (fun kv => if kv.1 = n then (n, v) else kv) := by
        refine List.mem_map.mpr ⟨kv, hkm, ?_⟩
        simp [hkn]
      exact lastCookie_isSome_of_mem hmm rfl
    rcases lastCookie_val n _ hall with h2 | h2
    · rw [h2] at hsome
      simp at hsome
    · exact h2

/-- C8: once `get_kkn_programs` reaches its data response, a non-empty
`csrf_value` immediately replaces the session's `simasterUGM_cookie`, while
a missing or empty `csrf_value` leaves the jar untouched; the `data` array
(defaulted to `[]`) is returned. -/
theorem C8_token_rotation (env : KknEnv) (mp lp : String) (dr : DataResp)
    (h1 : env.mainPage = some mp) (h2 : (search logbookLinkToks mp).isSome)
    (h3 : env.logbookPage = some lp)
    (h4 : (lastCookie env.cookiesAfterNav "simasterUGM_cookie").isSome)
    (h5 : (search dataUrlToks lp).isSome)
    (h6 : env.dataResp = some (some dr)) :
    (∀ v, dr.csrf_value = some v → v ≠ "" →
        lastCookie (get_kkn_programs env).2 "simasterUGM_cookie" = some v) ∧
    ((dr.csrf_value = none ∨ dr.csrf_value = some "") →
        (get_kkn_programs env).2 = env.cookiesAfterNav) ∧
    (get_kkn_programs env).1 = some (dr.data.getD []) := by
  obtain ⟨c2, hc2⟩ := Option.isSome_iff_exists.mp h2
  obtain ⟨c4, hc4⟩ := Option.isSome_iff_exists.mp h4
  obtain ⟨c5, hc5⟩ := Option.isSome_iff_exists.mp h5
  refine ⟨?_, ?_, ?_⟩
  · intro v hv hne
    simp only [get_kkn_programs, h1, hc2, h3, hc4, hc5, h6, hv]
    rw [if_pos hne]
    exact lastCookie_setCookie env.cookiesAfterNav "simasterUGM_cookie" v
  · intro hcase
    rcases hcase with hv | hv <;>
      simp [get_kkn_programs, h1, hc2, h3, hc4, hc5, h6, hv]
  · simp [get_kkn_programs, h1, hc2, h3, hc4, hc5, h6]

/-- C8 witness: concrete pages and a fresh token rotate the stored cookie. -/
theorem C8_witness :
    lastCookie (get_kkn_programs
      ⟨some ("<a href=" ++ aposS ++ "/kkn/logbook_program" ++ aposS ++
          ">Pelaksanaan Program</a>"),
       some (aposS ++ "url" ++ aposS ++ " : " ++ aposS ++
          "https://simaster.ugm.ac.id/kkn/kkn/logbook_program_data/xyz" ++ aposS),
       [("simasterUGM_cookie", "stale")],
       some (some ⟨some "fresh", some []⟩)⟩).2 "simasterUGM_cookie" = some "fresh" :=
  (C8_token_rotation _ _ _ ⟨some "fresh", some []⟩ rfl (by decide) rfl (by decide)
    (by decide) rfl).1 "fresh" rfl (by decide)

/-- C9: the generated point lies within distance `r` of the center in the
function's own equirectangular metric; the radial offset `sqrt u * r` never
exceeds `r` and has the area-uniform law (its CDF at `s` is `(s/r)^2`); and
the east-west metric displacement is the `cos`-corrected longitude delta,
i.e. the longitude delta was divided by the latitude cosine. -/
theorem C9_random_point_in_disc (lat lon r u t s : ℝ)
    (hu0 : 0 ≤ u) (hu1 : u ≤ 1) (hr : 0 ≤ r)
    (hcos : Real.cos (lat * Real.pi / 180) ≠ 0) :
    equirectDist lat lon (generate_random_point lat lon r u t).1
      (generate_random_point lat lon r u t).2 ≤ r ∧
    Real.sqrt u * r ≤ r ∧
    (0 < r → 0 ≤ s → s ≤ r → (Real.sqrt u * r ≤ s ↔ u ≤ (s / r) ^ 2)) ∧
    Real.cos (lat * Real.pi / 180) *
        (earth_radius * (((generate_random_point lat lon r u t).2 - lon) * Real.pi / 180))
      = Real.sqrt u * r * Real.cos (2 * Real.pi * t) := by
  have hR : (0 : ℝ) < earth_radius := by rw [earth_radius]; norm_num
  have hd0 : 0 ≤ Real.sqrt u * r := mul_nonneg (Real.sqrt_nonneg u) hr
  have hdr : Real.sqrt u * r ≤ r := by
    calc Real.sqrt u * r ≤ 1 * r :=
          mul_le_mul_of_nonneg_right (Real.sqrt_le_one.mpr hu1) hr
      _ = r := one_mul r
  have hphi : ((generate_random_point lat lon r u t).1 - lat) * Real.pi / 180
      = (Real.sqrt u * r / earth_radius) * Real.sin (2 * Real.pi * t) := by
    simp only [generate_random_point]
    field_simp
    ring
  have hlam : Real.cos (lat * Real.pi / 180) *
      (((generate_random_point lat lon r u t).2 - lon) * Real.pi / 180)
      = (Real.sqrt u * r / earth_radius) * Real.cos (2 * Real.pi * t) := by
    simp only [generate_random_point]
    field_simp
    ring
  refine ⟨?_, hdr, ?_, ?_⟩
  · simp only [equirectDist]
    rw [hphi, hlam]
    have hsum : (Real.sqrt u * r / earth_radius * Real.sin (2 * Real.pi * t)) ^ 2 +
        (Real.sqrt u * r / earth_radius * Real.cos (2 * Real.pi * t)) ^ 2
        = (Real.sqrt u * r / earth_radius) ^ 2 := by
      rw [mul_pow, mul_pow, ← mul_add, Real.sin_sq_add_cos_sq, mul_one]
    rw [hsum, Real.sqrt_sq (div_nonneg hd0 hR.le)]
    have hfin : earth_radius * (Real.sqrt u * r / earth_radius) = Real.sqrt u * r := by
      field_simp
    rw [hfin]
    exact hdr
  · intro hrpos hs0 hsr
    constructor
    · intro h
      have h1 : Real.sqrt u ≤ s / r := (le_div_iff₀ hrpos).mpr h
      calc u = Real.sqrt u ^ 2 := (Real.sq_sqrt hu0).symm
        _ ≤ (s / r) ^ 2 := pow_le_pow_left₀ (Real.sqrt_nonneg u) h1 2
    · intro h
      have h1 : Real.sqrt u ≤ s / r := by
        have h2 := Real.sqrt_le_sqrt h
        rwa [Real.sqrt_sq (div_nonneg hs0 hrpos.le)] at h2
      calc Real.sqrt u * r ≤ (s / r) * r := mul_le_mul_of_nonneg_right h1 hr
        _ = s := div_mul_cancel₀ s (ne_of_gt hrpos)
  · rw [show Real.cos (lat * Real.pi / 180) *
        (earth_radius * (((generate_random_point lat lon r u t).2 - lon) * Real.pi / 180))
        = earth_radius * (Real.cos (lat * Real.pi / 180) *
          (((generate_random_point lat lon r u t).2 - lon) * Real.pi / 180)) from by ring]
    rw [hlam]
    field_simp

/-- C9 witness: the disc bound and the area-law CDF at a concrete center,
radius 2, draw `u = 1/4` and threshold `s = 1`. -/
theorem C9_witness :
    equirectDist 0 0 (generate_random_point 0 0 2 (1/4) 0).1
      (generate_random_point 0 0 2 (1/4) 0).2 ≤ 2 ∧
    (Real.sqrt (1/4) * 2 ≤ 1 ↔ (1/4 : ℝ) ≤ ((1:ℝ) / 2) ^ 2) := by
  have h := C9_random_point_in_disc 0 0 2 (1/4) 0 1 (by norm_num) (by norm_num)
    (by norm_num) (by simp)
  exact ⟨h.1, h.2.2.1 (by norm_num) (by norm_num) (by norm_num)⟩

/-- A scan over rows with no matching main row fails without posting. -/
theorem paScanOuter_no_main (idx : Int) (title tok lat lon : String)
    (resp : Option (Option String)) (rows : List Row)
    (h : ∀ r ∈ rows, ¬MainRowMatch idx r) :
    paScanOuter idx title tok lat lon resp rows = (false, none) := by
  induction rows with
  | nil => rfl
  | cons r rest ih =>
    rw [paScanOuter]
    by_cases h5 : r.cells.length = 5
    · rw [if_pos h5]
      split
      · rfl
      · rename_i n hint
        have hne : n ≠ idx := by
          intro he
          exact h r (List.mem_cons_self r rest) ⟨h5, by rw [hint, he]⟩
        rw [if_neg hne]
        exact ih (fun x hx => h x (List.mem_cons_of_mem r hx))
    · rw [if_neg h5]
      exact ih (fun x hx => h x (List.mem_cons_of_mem r hx))

/-- An inner scan over a run that never contains the title fails without
posting. -/
theorem paScanInner_no_title (title tok lat lon : String)
    (resp : Option (Option String)) (rows : List Row)
    (h : ¬TitleInRun title rows) :
    paScanInner title tok lat lon resp rows = (false, none) := by
  induction rows with
  | nil => rfl
  | cons r rest ih =>
    rw [paScanInner]
    by_cases h2 : r.cells.length = 2
    · rw [if_neg (fun hx => hx h2)]
      have hcond : (r :: rest).takeWhile (fun q => decide (q.cells.length = 2))
          = r :: rest.takeWhile (fun q => decide (q.cells.length = 2)) := by
        simp [List.takeWhile_cons, h2]
      have hti : ¬strContains (rowText r) title = true := by
        intro hc
        refine h ⟨r, ?_, hc⟩
        rw [hcond]
        exact List.mem_cons_self _ _
      rw [if_neg hti]
      apply ih
      intro hrest
      obtain ⟨x, hx, hcx⟩ := hrest
      refine h ⟨x, ?_, hcx⟩
      rw [hcond]
      exact List.mem_cons_of_mem r hx
    · rw [if_pos h2]

/-- When the first matching main row's sub-run lacks the title, the scan
fails without posting. -/
theorem paScanOuter_title_missing (idx : Int) (title tok lat lon : String)
    (resp : Option (Option String)) (pre : List Row) (r : Row) (rest : List Row)
    (hpre : ∀ x ∈ pre, ¬MainRowMatch idx x)
    (hr : MainRowMatch idx r) (hrun : ¬TitleInRun title rest) :
    paScanOuter idx title tok lat lon resp (pre ++ r :: rest) = (false, none) := by
  induction pre with
  | nil =>
    simp only [List.nil_append]
    rw [paScanOuter, if_pos hr.1, hr.2]
    show (if idx = idx then paScanInner title tok lat lon resp rest
          else paScanOuter idx title tok lat lon resp rest) = (false, none)
    rw [if_pos rfl]
    exact paScanInner_no_title title tok lat lon resp rest hrun
  | cons x pre2 ih =>
    simp only [List.cons_append]
    rw [paScanOuter]
    by_cases h5 : x.cells.length = 5
    · rw [if_pos h5]
      split
      · rfl
      · rename_i n hint
        have hne : n ≠ idx := by
          intro he
          exact hpre x (List.mem_cons_self x pre2) ⟨h5, by rw [hint, he]⟩
        rw [if_neg hne]
        exact ih (fun y hy => hpre y (List.mem_cons_of_mem x hy))
    · rw [if_neg h5]
      exact ih (fun y hy => hpre y (List.mem_cons_of_mem x hy))

/-- A matched sub-row with no Presensi button fails without posting. -/
theorem paScanInner_no_button (title tok lat lon : String)
    (resp : Option (Option String)) (r : Row) (rest : List Row)
    (h2 : r.cells.length = 2) (ht : strContains (rowText r) title = true)
    (hb : (r.anchors.filter (fun a => strContains a.text "Presensi")).head? = none) :
    paScanInner title tok lat lon resp (r :: rest) = (false, none) := by
  rw [paScanInner, if_neg (fun hx => hx h2), if_pos ht, hb]

/-- A matched sub-row whose Presensi button has no `ajaxify` URL fails
without posting. -/
theorem paScanInner_no_ajaxify (title tok lat lon : String)
    (resp : Option (Option String)) (r : Row) (rest : List Row) (btn : Anchor)
    (h2 : r.cells.length = 2) (ht : strContains (rowText r) title = true)
    (hb : (r.anchors.filter (fun a => strContains a.text "Presensi")).head? = some btn)
    (ha : btn.ajaxify = none) :
    paScanInner title tok lat lon resp (r :: rest) = (false, none) := by
  rw [paScanInner, if_neg (fun hx => hx h2), if_pos ht, hb]
  simp [ha]

/-- If the inner scan posted a payload, every lookup succeeded and the
payload is exactly the last-five-segments payload. -/
theorem paScanInner_posted (title tok lat lon : String)
    (resp : Option (Option String)) (rows : List Row) (b : Bool) (p : AttendPayload)
    (h : paScanInner title tok lat lon resp rows = (b, some p)) :
    ∃ r ∈ rows, r.cells.length = 2 ∧ strContains (rowText r) title = true ∧
      ∃ btn url,
        (r.anchors.filter (fun a => strContains a.text "Presensi")).head? = some btn ∧
        btn.ajaxify = some url ∧
        5 ≤ ((splitOnChar url '/').filter (· ≠ "")).length ∧
        p = attendPayloadOf url lat lon tok := by
  induction rows with
  | nil => simp [paScanInner] at h
  | cons r rest ih =>
    rw [paScanInner] at h
    by_cases h2 : r.cells.length = 2
    · rw [if_neg (fun hx => hx h2)] at h
      by_cases ht : strContains (rowText r) title = true
      · rw [if_pos ht] at h
        cases hbtn : (r.anchors.filter (fun a => strContains a.text "Presensi")).head? with
        | none =>
          simp only [hbtn] at h
          simp at h
        | some btn =>
          simp only [hbtn] at h
          cases haj : btn.ajaxify with
          | none =>
            simp only [haj] at h
            simp at h
          | some url =>
            simp only [haj] at h
            by_cases hlen : ((splitOnChar url '/').filter (· ≠ "")).length < 5
            · rw [if_pos hlen] at h
              simp at h
            · rw [if_neg hlen] at h
              refine ⟨r, List.mem_cons_self r rest, h2, ht, btn, url, hbtn, haj,
                by omega, ?_⟩
              cases resp with
              | none =>
                rw [Prod.mk.injEq] at h
                exact (Option.some_inj.mp h.2).symm
              | some st =>
                rw [Prod.mk.injEq] at h
                exact (Option.some_inj.mp h.2).symm
      · rw [if_neg ht] at h
        obtain ⟨x, hx, hrest⟩ := ih h
        exact ⟨x, List.mem_cons_of_mem r hx, hrest⟩
    · rw [if_pos h2] at h
      simp at h

/-- If the outer scan posted a payload, some sub-row supplied a complete
`ajaxify` URL whose last five non-empty segments form the payload. -/
theorem paScanOuter_posted (idx : Int) (title tok lat lon : String)
    (resp : Option (Option String)) (rows : List Row) (b : Bool) (p : AttendPayload)
    (h : paScanOuter idx title tok lat lon resp rows = (b, some p)) :
    ∃ r ∈ rows, r.cells.length = 2 ∧ strContains (rowText r) title = true ∧
      ∃ btn url,
        (r.anchors.filter (fun a => strContains a.text "Presensi")).head? = some btn ∧
        btn.ajaxify = some url ∧
        5 ≤ ((splitOnChar url '/').filter (· ≠ "")).length ∧
        p = attendPayloadOf url lat lon tok := by
  induction rows with
  | nil => simp [paScanOuter] at h
  | cons r rest ih =>
    rw [paScanOuter] at h
    by_cases h5 : r.cells.length = 5
    · rw [if_pos h5] at h
      cases hint : pyInt? (trimS (cellTextAt r 0)) with
      | none =>
        simp only [hint] at h
        simp at h
      | some n =>
        simp only [hint] at h
        by_cases hn : n = idx
        · rw [if_pos hn] at h
          obtain ⟨x, hx, hrest⟩ := paScanInner_posted title tok lat lon resp rest b p h
          exact ⟨x, List.mem_cons_of_mem r hx, hrest⟩
        · rw [if_neg hn] at h
          obtain ⟨x, hx, hrest⟩ := ih h
          exact ⟨x, List.mem_cons_of_mem r hx, hrest⟩
    · rw [if_neg h5] at h
      obtain ⟨x, hx, hrest⟩ := ih h
      exact ⟨x, List.mem_cons_of_mem r hx, hrest⟩

/-- C10: the attendance `POST` is issued only after every lookup succeeds.
Token-resolution failure, a missing main row, a missing sub-entry title in
the matched main row's run, a missing Presensi button, and a missing
`ajaxify` attribute each return `False` with no `POST`; and whenever a
`POST` is issued its five path segments are the last five non-empty
`/`-separated components of the `ajaxify` URL, in order
`timelineId, rppJenisProgram, rppMhsId, kegiatanMhsId, programMhsId`. -/
theorem C10_no_post_on_failed_lookup :
    (∀ (env : PostAttEnv) (pid : String) (idx : Int) (title lat lon : String)
        (programs : List Program) (target : Program) (rf : RppFetch) (tok : String),
        (get_kkn_programs env.kkn).1 = some programs → programs ≠ [] →
        programs.find? (fun p => p.program_mhs_id = pid) = some target →
        (search rppToks target.action).isSome → env.rpp = some rf →
        rppToken? rf (get_kkn_programs env.kkn).2 = some tok →
        post_attendance_for_sub_entry env pid idx title lat lon =
          paScanOuter idx title tok lat lon env.postResp rf.rows) ∧
    (∀ (env : PostAttEnv) (pid : String) (idx : Int) (title lat lon : String)
        (programs : List Program) (target : Program) (rf : RppFetch),
        (get_kkn_programs env.kkn).1 = some programs → programs ≠ [] →
        programs.find? (fun p => p.program_mhs_id = pid) = some target →
        (search rppToks target.action).isSome → env.rpp = some rf →
        rppToken? rf (get_kkn_programs env.kkn).2 = none →
        post_attendance_for_sub_entry env pid idx title lat lon = (false, none)) ∧
    (∀ (idx : Int) (title tok lat lon : String) (resp : Option (Option String))
        (rows : List Row), (∀ r ∈ rows, ¬MainRowMatch idx r) →
        paScanOuter idx title tok lat lon resp rows = (false, none)) ∧
    (∀ (idx : Int) (title tok lat lon : String) (resp : Option (Option String))
        (pre : List Row) (r : Row) (rest : List Row),
        (∀ x ∈ pre, ¬MainRowMatch idx x) → MainRowMatch idx r →
        ¬TitleInRun title rest →
        paScanOuter idx title tok lat lon resp (pre ++ r :: rest) = (false, none)) ∧
    (∀ (title tok lat lon : String) (resp : Option (Option String))
        (r : Row) (rest : List Row),
        r.cells.length = 2 → strContains (rowText r) title = true →
        (r.anchors.filter (fun a => strContains a.text "Presensi")).head? = none →
        paScanInner title tok lat lon resp (r :: rest) = (false, none)) ∧
    (∀ (title tok lat lon : String) (resp : Option (Option String))
        (r : Row) (rest : List Row) (btn : Anchor),
        r.cells.length = 2 → strContains (rowText r) title = true →
        (r.anchors.filter (fun a => strContains a.text "Presensi")).head? = some btn →
        btn.ajaxify = none →
        paScanInner title tok lat lon resp (r :: rest) = (false, none)) ∧
    (∀ (idx : Int) (title tok lat lon : String) (resp : Option (Option String))
        (rows : List Row) (b : Bool) (p : AttendPayload),
        paScanOuter idx title tok lat lon resp rows = (b, some p) →
        ∃ r ∈ rows, r.cells.length = 2 ∧ strContains (rowText r) title = true ∧
          ∃ btn url,
            (r.anchors.filter (fun a => strContains a.text "Presensi")).head? = some btn ∧
            btn.ajaxify = some url ∧
            5 ≤ ((splitOnChar url '/').filter (· ≠ "")).length ∧
            p = attendPayloadOf url lat lon tok) := by
  refine ⟨?_, ?_, paScanOuter_no_main, paScanOuter_title_missing,
    paScanInner_no_button, paScanInner_no_ajaxify, paScanOuter_posted⟩
  · intro env pid idx title lat lon programs target rf tok h1 h2 h3 h4 h5 h6
    obtain ⟨c, hc⟩ := Option.isSome_iff_exists.mp h4
    simp only [post_attendance_for_sub_entry, h1, h3, hc, h5, h6, if_neg h2]
  · intro env pid idx title lat lon programs target rf h1 h2 h3 h4 h5 h6
    obtain ⟨c, hc⟩ := Option.isSome_iff_exists.mp h4
    simp only [post_attendance_for_sub_entry, h1, h3, hc, h5, h6, if_neg h2]

/-- C10 witness: a complete concrete environment in which the main entry is
found, the sub-entry title is found, and the call reduces to the row scan
with the token from the RPP response cookies. -/
theorem C10_witness :
    post_attendance_for_sub_entry
      ⟨⟨some ("<a href=" ++ aposS ++ "/kkn/logbook_program" ++ aposS ++
            ">Pelaksanaan Program</a>"),
        some (aposS ++ "url" ++ aposS ++ " : " ++ aposS ++
            "https://simaster.ugm.ac.id/kkn/kkn/logbook_program_data/xyz" ++ aposS),
        [("simasterUGM_cookie", "t0")],
        some (some ⟨none, some [⟨"p1", sampleRppAction⟩]⟩)⟩,
       some ⟨[("simasterUGM_cookie", "tokR")], [], [fillerRow]⟩,
       some (some "success")⟩
      "p1" 1 "Kerja" "0.1" "0.2" =
    paScanOuter 1 "Kerja" "tokR" "0.1" "0.2" (some (some "success")) [fillerRow] :=
  C10_no_post_on_failed_lookup.1 _ "p1" 1 "Kerja" "0.1" "0.2"
    [⟨"p1", sampleRppAction⟩] ⟨"p1", sampleRppAction⟩
    ⟨[("simasterUGM_cookie", "tokR")], [], [fillerRow]⟩ "tokR"
    (by decide) (by decide) (by decide) (by decide) rfl (by decide)

end MalasKKN
